import Mathlib

/-!
Verification of `fs_dfs_hdlr` (src/utils/daos_dfs_hdlr.c): the staged
acquire / dispatch / unwind protocol of the DAOS `daos fs` command handler.

The handler is embedded as a pure function over an oracle environment `Env`
that fixes the return code of every external call (pool connect, container
open, dfs mount, set-prefix, lookup, get-info, object release, umount,
container close, pool disconnect) together with the object info the storage
layer reports and the external formatting helpers (`daos_errno2der`,
`d_errdesc`, `strerror`, `daos_oclass_id2name`).  Each external call is made
at most once per invocation, so one code per call suffices.

The handler returns `(Option Int) × List Ev`: the first component is the
C return value (`none` models the `D_ASSERT(0)` abort in the `default`
branch, which never returns), the second is the ordered trace of external
calls (each recording the flags passed and the code returned), stdout
lines (`Ev.out`) and stderr diagnostics (`Ev.err`).  A `Diag` records which
identifiers (pool uuid / container uuid / path), numeric code and textual
description the corresponding `fprintf` interpolates.
-/

namespace DaosDfs

/-- Operation selector `ap->fs_op`.  The four recognized values plus `OTHER`,
standing for any value outside the enumeration (the `default:` case). -/
inductive FsOp
  | GET_OCLASS
  | GET_CSIZE
  | SET_OCLASS
  | SET_CSIZE
  | OTHER
deriving DecidableEq

/-- Access mode passed to `dfs_mount` / `dfs_lookup` (`O_RDWR` / `O_RDONLY`). -/
inductive OpenFlags
  | O_RDWR
  | O_RDONLY
deriving DecidableEq

/-- Fields of `struct cmd_args_s` read by the handler. -/
structure CmdArgs where
  p_uuid : String
  c_uuid : String
  dfs_pfx : Option String
  dfs_path : String
  fs_op : FsOp
deriving DecidableEq

/-- A stderr diagnostic: the fixed message skeleton, the identifiers the
`fprintf` interpolates, and the numeric code / textual description, if any. -/
structure Diag where
  text : String
  ids : List String
  code : Option Int
  desc : Option String
deriving DecidableEq

/-- Observable events of one handler invocation, in program order. -/
inductive Ev
  | callPoolConnect (rc : Int)
  | callContOpen (rc : Int)
  | callMount (flags : OpenFlags) (rc : Int)
  | callSetPfx (rc : Int)
  | callLookup (flags : OpenFlags) (rc : Int)
  | callGetInfo (rc : Int)
  | callObjRelease (rc : Int)
  | callUmount (rc : Int)
  | callContClose (rc : Int)
  | callPoolDisconnect (rc : Int)
  | out (line : String)
  | err (d : Diag)
deriving DecidableEq

/-- Oracle for the external collaborators: the code each call returns, the
object info the storage layer reports, and the formatting helpers. -/
structure Env where
  rc_pool_connect : Int
  rc_cont_open : Int
  rc_mount : Int
  rc_set_pfx : Int
  rc_lookup : Int
  rc_get_info : Int
  rc_obj_release : Int
  rc_umount : Int
  rc_cont_close : Int
  rc_pool_disconnect : Int
  doi_oclass_id : Nat
  doi_chunk_size : Nat
  errno2der : Int → Int
  d_errdesc : Int → String
  strerror : Int → String
  oclass_id2name : Nat → String

/-- Diagnostic of `daos_pool_connect` failure (line 37). -/
def connectDiag (ap : CmdArgs) (env : Env) (rc : Int) : Diag :=
  ⟨"failed to connect to pool", [ap.p_uuid], some rc, some (env.d_errdesc rc)⟩

/-- Diagnostic of `daos_cont_open` failure (line 46). -/
def openDiag (ap : CmdArgs) (env : Env) (rc : Int) : Diag :=
  ⟨"failed to open container", [ap.c_uuid], some rc, some (env.d_errdesc rc)⟩

/-- Diagnostic of `dfs_mount` failure (line 59). -/
def mountDiag (ap : CmdArgs) (env : Env) (rc : Int) : Diag :=
  ⟨"failed to mount container", [ap.c_uuid], some rc, some (env.strerror rc)⟩

/-- Diagnostic of `dfs_lookup` failure (line 81). -/
def lookupDiag (ap : CmdArgs) (env : Env) (rc : Int) : Diag :=
  ⟨"failed to lookup", [ap.dfs_path], none, some (env.strerror rc)⟩

/-- Diagnostic of `dfs_obj_get_info` failure (line 87): no identifier. -/
def getInfoDiag (env : Env) (rc : Int) : Diag :=
  ⟨"failed to get obj info", [], none, some (env.strerror rc)⟩

/-- Diagnostic of the checked `dfs_release` failure (line 95): no identifier. -/
def objReleaseDiag (env : Env) (rc : Int) : Diag :=
  ⟨"failed to release obj handle", [], none, some (env.strerror rc)⟩

/-- Diagnostic of `dfs_umount` failure (line 118): no identifier, no code. -/
def umountDiag : Diag :=
  ⟨"failed to umount DFS container", [], none, none⟩

/-- Diagnostic of `daos_cont_close` failure (line 124). -/
def closeDiag (ap : CmdArgs) (env : Env) (rc : Int) : Diag :=
  ⟨"failed to close container", [ap.c_uuid], some rc, some (env.d_errdesc rc)⟩

/-- Diagnostic of `daos_pool_disconnect` failure (line 132). -/
def disconnectDiag (ap : CmdArgs) (env : Env) (rc : Int) : Diag :=
  ⟨"failed to disconnect from pool", [ap.p_uuid], some rc, some (env.d_errdesc rc)⟩

/-- Mode selection (lines 52-55): `O_RDWR` for the two set-operations,
`O_RDONLY` otherwise. -/
def mountFlags (op : FsOp) : OpenFlags :=
  if op = FsOp.SET_OCLASS ∨ op = FsOp.SET_CSIZE then OpenFlags.O_RDWR
  else OpenFlags.O_RDONLY

/-- Label `out_disconnect` (lines 129-136): disconnect the pool, log a
failure, and merge its code into `rc` only if `rc` was still zero. -/
def out_disconnect (ap : CmdArgs) (env : Env) (rc : Int) : Int × List Ev :=
  let rc2 := env.rc_pool_disconnect
  (if rc = 0 then rc2 else rc,
   Ev.callPoolDisconnect rc2 ::
     (if rc2 ≠ 0 then [Ev.err (disconnectDiag ap env rc2)] else []))

/-- Label `out_close` (lines 121-128): close the container, log a failure,
first-error-wins merge, then fall through to `out_disconnect`. -/
def out_close (ap : CmdArgs) (env : Env) (rc : Int) : Int × List Ev :=
  let rc2 := env.rc_cont_close
  let evs := Ev.callContClose rc2 ::
    (if rc2 ≠ 0 then [Ev.err (closeDiag ap env rc2)] else [])
  let tail := out_disconnect ap env (if rc = 0 then rc2 else rc)
  (tail.1, evs ++ tail.2)

/-- Label `out_umount` (lines 115-120): unmount, log a failure (message
only), first-error-wins merge, then fall through to `out_close`. -/
def out_umount (ap : CmdArgs) (env : Env) (rc : Int) : Int × List Ev :=
  let rc2 := env.rc_umount
  let evs := Ev.callUmount rc2 ::
    (if rc2 ≠ 0 then [Ev.err umountDiag] else [])
  let tail := out_close ap env (if rc = 0 then rc2 else rc)
  (tail.1, evs ++ tail.2)

/-- The `switch (ap->fs_op)` dispatcher (lines 71-113) followed by the
fall-through into the unwind labels.  `evs` is the trace accumulated by the
acquisition stages.  Returns `none` for the `D_ASSERT(0)` abort of the
`default:` branch, which releases nothing and never returns. -/
def dispatchAndUnwind (ap : CmdArgs) (env : Env) (flags : OpenFlags)
    (evs : List Ev) : Option Int × List Ev :=
  match ap.fs_op with
  | FsOp.GET_OCLASS | FsOp.GET_CSIZE =>
    let rcl := env.rc_lookup
    if rcl ≠ 0 then
      let evs2 := evs ++ [Ev.callLookup flags rcl, Ev.err (lookupDiag ap env rcl)]
      let tail := out_umount ap env rcl
      (some tail.1, evs2 ++ tail.2)
    else
      let evs2 := evs ++ [Ev.callLookup flags rcl]
      let rci := env.rc_get_info
      if rci ≠ 0 then
        let evs3 := evs2 ++ [Ev.callGetInfo rci, Ev.err (getInfoDiag env rci),
          Ev.callObjRelease env.rc_obj_release]
        let tail := out_umount ap env rci
        (some tail.1, evs3 ++ tail.2)
      else
        let evs3 := evs2 ++ [Ev.callGetInfo rci]
        let rcr := env.rc_obj_release
        if rcr ≠ 0 then
          let evs4 := evs3 ++ [Ev.callObjRelease rcr,
            Ev.err (objReleaseDiag env rcr)]
          let tail := out_umount ap env rcr
          (some tail.1, evs4 ++ tail.2)
        else
          let evs4 := evs3 ++ [Ev.callObjRelease rcr,
            Ev.out ("Object Class = " ++ env.oclass_id2name env.doi_oclass_id
              ++ " (" ++ toString env.doi_oclass_id ++ ")"),
            Ev.out ("Object Chunk Size = " ++ toString env.doi_chunk_size)]
          let tail := out_umount ap env 0
          (some tail.1, evs4 ++ tail.2)
  | FsOp.SET_OCLASS =>
    let tail := out_umount ap env 0
    (some tail.1, evs ++ [Ev.out "FS_SET_OCLASS"] ++ tail.2)
  | FsOp.SET_CSIZE =>
    let tail := out_umount ap env 0
    (some tail.1, evs ++ [Ev.out "FS_SET_CSIZE"] ++ tail.2)
  | FsOp.OTHER =>
    (none, evs)

/-- The handler `fs_dfs_hdlr` (lines 27-139): pool connect, container open,
mode selection, dfs mount, optional prefix, dispatch, unwind. -/
def fs_dfs_hdlr (ap : CmdArgs) (env : Env) : Option Int × List Ev :=
  let rc0 := env.rc_pool_connect
  if rc0 ≠ 0 then
    (some rc0, [Ev.callPoolConnect rc0, Ev.err (connectDiag ap env rc0)])
  else
    let rc1 := env.rc_cont_open
    if rc1 ≠ 0 then
      let tail := out_disconnect ap env rc1
      (some tail.1,
       [Ev.callPoolConnect rc0, Ev.callContOpen rc1,
        Ev.err (openDiag ap env rc1)] ++ tail.2)
    else
      let flags := mountFlags ap.fs_op
      let rcm := env.rc_mount
      if rcm ≠ 0 then
        let tail := out_close ap env (env.errno2der rcm)
        (some tail.1,
         [Ev.callPoolConnect rc0, Ev.callContOpen rc1,
          Ev.callMount flags rcm, Ev.err (mountDiag ap env rcm)] ++ tail.2)
      else
        let acq := [Ev.callPoolConnect rc0, Ev.callContOpen rc1,
          Ev.callMount flags rcm]
        match ap.dfs_pfx with
        | some _ =>
          let rcp := env.rc_set_pfx
          if rcp ≠ 0 then
            let tail := out_umount ap env rcp
            (some tail.1, acq ++ [Ev.callSetPfx rcp] ++ tail.2)
          else
            dispatchAndUnwind ap env flags (acq ++ [Ev.callSetPfx rcp])
        | none =>
          dispatchAndUnwind ap env flags acq

/-- The code the handler records for an event: the raw return code of each
fallible call, except `dfs_mount`, whose nonzero errno is recorded through
`daos_errno2der` (line 62).  Output events record no code. -/
def recordedCode (env : Env) : Ev → Option Int
  | Ev.callPoolConnect rc => some rc
  | Ev.callContOpen rc => some rc
  | Ev.callMount _ rc => some (if rc ≠ 0 then env.errno2der rc else rc)
  | Ev.callSetPfx rc => some rc
  | Ev.callLookup _ rc => some rc
  | Ev.callGetInfo rc => some rc
  | Ev.callObjRelease rc => some rc
  | Ev.callUmount rc => some rc
  | Ev.callContClose rc => some rc
  | Ev.callPoolDisconnect rc => some rc
  | Ev.out _ => none
  | Ev.err _ => none

/-- First nonzero code of a list, zero if all are zero. -/
def firstNonzero : List Int → Int
  | [] => 0
  | c :: l => if c ≠ 0 then c else firstNonzero l

/-- Release calls: object release, umount, container close, pool disconnect. -/
def isReleaseCall : Ev → Bool
  | Ev.callObjRelease _ => true
  | Ev.callUmount _ => true
  | Ev.callContClose _ => true
  | Ev.callPoolDisconnect _ => true
  | _ => false

/-- Stdout events. -/
def isOutEv : Ev → Bool
  | Ev.out _ => true
  | _ => false

/-- Stderr diagnostic events. -/
def isErrEv : Ev → Bool
  | Ev.err _ => true
  | _ => false

/-- The two get-operations. -/
def isGetOp : FsOp → Bool
  | FsOp.GET_OCLASS => true
  | FsOp.GET_CSIZE => true
  | _ => false

/-- All acquisition stages and the optional prefix stage succeeded, so the
`switch` dispatcher is reached. -/
def reachedDispatch (ap : CmdArgs) (env : Env) : Prop :=
  env.rc_pool_connect = 0 ∧ env.rc_cont_open = 0 ∧ env.rc_mount = 0 ∧
    (ap.dfs_pfx.isSome = true → env.rc_set_pfx = 0)

instance (ap : CmdArgs) (env : Env) : Decidable (reachedDispatch ap env) := by
  unfold reachedDispatch
  infer_instance

theorem firstNonzero_eq_zero (l : List Int) :
    firstNonzero l = 0 ↔ ∀ c ∈ l, c = 0 := by
  induction l with
  | nil => simp [firstNonzero]
  | cons a l ih =>
    by_cases ha : a = 0 <;> simp [firstNonzero, ha, ih]

theorem firstNonzero_merge (rc a : Int) (l : List Int) :
    firstNonzero ((if rc = 0 then a else rc) :: l) = firstNonzero (rc :: a :: l) := by
  by_cases h : rc = 0 <;> by_cases h2 : a = 0 <;> simp [firstNonzero, h, h2]

theorem out_disconnect_fst (ap : CmdArgs) (env : Env) (rc : Int) :
    (out_disconnect ap env rc).1 = firstNonzero [rc, env.rc_pool_disconnect] := by
  by_cases h : rc = 0 <;> by_cases h2 : env.rc_pool_disconnect = 0 <;>
    simp [out_disconnect, firstNonzero, h, h2]

theorem out_close_fst (ap : CmdArgs) (env : Env) (rc : Int) :
    (out_close ap env rc).1 =
      firstNonzero [rc, env.rc_cont_close, env.rc_pool_disconnect] := by
  have h := out_disconnect_fst ap env (if rc = 0 then env.rc_cont_close else rc)
  simp only [out_close, h, firstNonzero_merge]

theorem out_umount_fst (ap : CmdArgs) (env : Env) (rc : Int) :
    (out_umount ap env rc).1 =
      firstNonzero [rc, env.rc_umount, env.rc_cont_close,
        env.rc_pool_disconnect] := by
  have h := out_close_fst ap env (if rc = 0 then env.rc_umount else rc)
  simp only [out_umount, h, firstNonzero_merge]

theorem out_umount_releases (ap : CmdArgs) (env : Env) (rc : Int) :
    (out_umount ap env rc).2.filter isReleaseCall =
      [Ev.callUmount env.rc_umount, Ev.callContClose env.rc_cont_close,
       Ev.callPoolDisconnect env.rc_pool_disconnect] := by
  by_cases h1 : env.rc_umount = 0 <;> by_cases h2 : env.rc_cont_close = 0 <;>
    by_cases h3 : env.rc_pool_disconnect = 0 <;>
      simp [out_umount, out_close, out_disconnect, isReleaseCall, h1, h2, h3]

theorem out_close_releases (ap : CmdArgs) (env : Env) (rc : Int) :
    (out_close ap env rc).2.filter isReleaseCall =
      [Ev.callContClose env.rc_cont_close,
       Ev.callPoolDisconnect env.rc_pool_disconnect] := by
  by_cases h2 : env.rc_cont_close = 0 <;>
    by_cases h3 : env.rc_pool_disconnect = 0 <;>
      simp [out_close, out_disconnect, isReleaseCall, h2, h3]

theorem out_disconnect_releases (ap : CmdArgs) (env : Env) (rc : Int) :
    (out_disconnect ap env rc).2.filter isReleaseCall =
      [Ev.callPoolDisconnect env.rc_pool_disconnect] := by
  by_cases h3 : env.rc_pool_disconnect = 0 <;>
    simp [out_disconnect, isReleaseCall, h3]

theorem out_umount_codes (ap : CmdArgs) (env : Env) (rc : Int) :
    (out_umount ap env rc).2.filterMap (recordedCode env) =
      [env.rc_umount, env.rc_cont_close, env.rc_pool_disconnect] := by
  by_cases h1 : env.rc_umount = 0 <;> by_cases h2 : env.rc_cont_close = 0 <;>
    by_cases h3 : env.rc_pool_disconnect = 0 <;>
      simp [out_umount, out_close, out_disconnect, recordedCode, h1, h2, h3]

theorem out_close_codes (ap : CmdArgs) (env : Env) (rc : Int) :
    (out_close ap env rc).2.filterMap (recordedCode env) =
      [env.rc_cont_close, env.rc_pool_disconnect] := by
  by_cases h2 : env.rc_cont_close = 0 <;>
    by_cases h3 : env.rc_pool_disconnect = 0 <;>
      simp [out_close, out_disconnect, recordedCode, h2, h3]

theorem out_disconnect_codes (ap : CmdArgs) (env : Env) (rc : Int) :
    (out_disconnect ap env rc).2.filterMap (recordedCode env) =
      [env.rc_pool_disconnect] := by
  by_cases h3 : env.rc_pool_disconnect = 0 <;>
    simp [out_disconnect, recordedCode, h3]

theorem out_umount_all (ap : CmdArgs) (env : Env) (rc : Int) :
    ∀ e ∈ (out_umount ap env rc).2,
      isReleaseCall e = true ∨ isErrEv e = true := by
  by_cases h1 : env.rc_umount = 0 <;> by_cases h2 : env.rc_cont_close = 0 <;>
    by_cases h3 : env.rc_pool_disconnect = 0 <;>
      simp [out_umount, out_close, out_disconnect, isReleaseCall, isErrEv,
        h1, h2, h3]

theorem out_close_all (ap : CmdArgs) (env : Env) (rc : Int) :
    ∀ e ∈ (out_close ap env rc).2,
      isReleaseCall e = true ∨ isErrEv e = true := by
  by_cases h2 : env.rc_cont_close = 0 <;>
    by_cases h3 : env.rc_pool_disconnect = 0 <;>
      simp [out_close, out_disconnect, isReleaseCall, isErrEv, h2, h3]

theorem out_disconnect_all (ap : CmdArgs) (env : Env) (rc : Int) :
    ∀ e ∈ (out_disconnect ap env rc).2,
      isReleaseCall e = true ∨ isErrEv e = true := by
  by_cases h3 : env.rc_pool_disconnect = 0 <;>
    simp [out_disconnect, isReleaseCall, isErrEv, h3]

theorem firstNonzero_append_zeros (l1 l2 : List Int)
    (h : ∀ c ∈ l1, c = 0) :
    firstNonzero (l1 ++ l2) = firstNonzero l2 := by
  induction l1 with
  | nil => simp
  | cons a l ih =>
    have ha : a = 0 := h a (by simp)
    simp [firstNonzero, ha]
    exact ih fun c hc => h c (by simp [hc])

theorem out_umount_outs (ap : CmdArgs) (env : Env) (rc : Int) :
    (out_umount ap env rc).2.filter isOutEv = [] := by
  by_cases h1 : env.rc_umount = 0 <;> by_cases h2 : env.rc_cont_close = 0 <;>
    by_cases h3 : env.rc_pool_disconnect = 0 <;>
      simp [out_umount, out_close, out_disconnect, isOutEv, h1, h2, h3]

theorem out_umount_not_lookup (ap : CmdArgs) (env : Env) (rc : Int)
    (f : OpenFlags) (c : Int) :
    Ev.callLookup f c ∉ (out_umount ap env rc).2 := by
  intro h
  rcases out_umount_all ap env rc _ h with h2 | h2 <;>
    simp [isReleaseCall, isErrEv] at h2

theorem out_umount_not_getInfo (ap : CmdArgs) (env : Env) (rc c : Int) :
    Ev.callGetInfo c ∉ (out_umount ap env rc).2 := by
  intro h
  rcases out_umount_all ap env rc _ h with h2 | h2 <;>
    simp [isReleaseCall, isErrEv] at h2

theorem out_umount_not_mount (ap : CmdArgs) (env : Env) (rc : Int)
    (f : OpenFlags) (c : Int) :
    Ev.callMount f c ∉ (out_umount ap env rc).2 := by
  intro h
  rcases out_umount_all ap env rc _ h with h2 | h2 <;>
    simp [isReleaseCall, isErrEv] at h2

theorem out_umount_not_objRelease (ap : CmdArgs) (env : Env) (rc c : Int) :
    Ev.callObjRelease c ∉ (out_umount ap env rc).2 := by
  intro h
  have hm : Ev.callObjRelease c ∈
      (out_umount ap env rc).2.filter isReleaseCall :=
    List.mem_filter.mpr ⟨h, rfl⟩
  rw [out_umount_releases] at hm
  simp at hm

theorem out_close_not_mount (ap : CmdArgs) (env : Env) (rc : Int)
    (f : OpenFlags) (c : Int) :
    Ev.callMount f c ∉ (out_close ap env rc).2 := by
  intro h
  rcases out_close_all ap env rc _ h with h2 | h2 <;>
    simp [isReleaseCall, isErrEv] at h2

theorem out_close_not_lookup (ap : CmdArgs) (env : Env) (rc : Int)
    (f : OpenFlags) (c : Int) :
    Ev.callLookup f c ∉ (out_close ap env rc).2 := by
  intro h
  rcases out_close_all ap env rc _ h with h2 | h2 <;>
    simp [isReleaseCall, isErrEv] at h2

theorem out_disconnect_not_mount (ap : CmdArgs) (env : Env) (rc : Int)
    (f : OpenFlags) (c : Int) :
    Ev.callMount f c ∉ (out_disconnect ap env rc).2 := by
  intro h
  rcases out_disconnect_all ap env rc _ h with h2 | h2 <;>
    simp [isReleaseCall, isErrEv] at h2

theorem out_disconnect_not_lookup (ap : CmdArgs) (env : Env) (rc : Int)
    (f : OpenFlags) (c : Int) :
    Ev.callLookup f c ∉ (out_disconnect ap env rc).2 := by
  intro h
  rcases out_disconnect_all ap env rc _ h with h2 | h2 <;>
    simp [isReleaseCall, isErrEv] at h2

theorem out_umount_err_umount (ap : CmdArgs) (env : Env) (rc : Int)
    (h : env.rc_umount ≠ 0) :
    Ev.err umountDiag ∈ (out_umount ap env rc).2 := by
  simp [out_umount, out_close, out_disconnect, h]

theorem out_umount_err_close (ap : CmdArgs) (env : Env) (rc : Int)
    (h : env.rc_cont_close ≠ 0) :
    Ev.err (closeDiag ap env env.rc_cont_close) ∈ (out_umount ap env rc).2 := by
  simp [out_umount, out_close, out_disconnect, h]

theorem out_umount_err_disconnect (ap : CmdArgs) (env : Env) (rc : Int)
    (h : env.rc_pool_disconnect ≠ 0) :
    Ev.err (disconnectDiag ap env env.rc_pool_disconnect) ∈
      (out_umount ap env rc).2 := by
  simp [out_umount, out_close, out_disconnect, h]

theorem out_umount_errs_ok (ap : CmdArgs) (env : Env) (rc : Int)
    (h1 : env.rc_umount = 0) (h2 : env.rc_cont_close = 0)
    (h3 : env.rc_pool_disconnect = 0) :
    (out_umount ap env rc).2.filter isErrEv = [] := by
  simp [out_umount, out_close, out_disconnect, isErrEv, h1, h2, h3]

theorem dispatch_fst_none (ap : CmdArgs) (env : Env) (flags : OpenFlags)
    (evs : List Ev) :
    (dispatchAndUnwind ap env flags evs).1 = none ↔
      ap.fs_op = FsOp.OTHER := by
  cases hop : ap.fs_op <;> simp [dispatchAndUnwind, hop] <;>
    split_ifs <;> simp

theorem dispatch_lookup_flags (ap : CmdArgs) (env : Env) (flags : OpenFlags)
    (evs : List Ev) (f : OpenFlags) (c : Int)
    (h : Ev.callLookup f c ∈ (dispatchAndUnwind ap env flags evs).2) :
    Ev.callLookup f c ∈ evs ∨ f = flags := by
  cases hop : ap.fs_op <;> simp [dispatchAndUnwind, hop] at h
  case GET_OCLASS =>
    split_ifs at h <;> simp [out_umount_not_lookup] at h <;> tauto
  case GET_CSIZE =>
    split_ifs at h <;> simp [out_umount_not_lookup] at h <;> tauto
  case SET_OCLASS =>
    simp [out_umount_not_lookup] at h
    exact Or.inl h
  case SET_CSIZE =>
    simp [out_umount_not_lookup] at h
    exact Or.inl h
  case OTHER => exact Or.inl h

theorem dispatch_no_mount (ap : CmdArgs) (env : Env) (flags : OpenFlags)
    (evs : List Ev) (f : OpenFlags) (c : Int)
    (h : Ev.callMount f c ∈ (dispatchAndUnwind ap env flags evs).2) :
    Ev.callMount f c ∈ evs := by
  cases hop : ap.fs_op <;> simp [dispatchAndUnwind, hop] at h
  case GET_OCLASS =>
    split_ifs at h <;> simp [out_umount_not_mount] at h <;> tauto
  case GET_CSIZE =>
    split_ifs at h <;> simp [out_umount_not_mount] at h <;> tauto
  case SET_OCLASS =>
    simp [out_umount_not_mount] at h
    exact h
  case SET_CSIZE =>
    simp [out_umount_not_mount] at h
    exact h
  case OTHER => exact h

theorem dispatch_no_getInfo (ap : CmdArgs) (env : Env) (flags : OpenFlags)
    (evs : List Ev) (c : Int) (hl : env.rc_lookup ≠ 0)
    (hevs : Ev.callGetInfo c ∉ evs) :
    Ev.callGetInfo c ∉ (dispatchAndUnwind ap env flags evs).2 := by
  intro h
  cases hop : ap.fs_op <;> simp [dispatchAndUnwind, hop, hl] at h <;>
    simp [out_umount_not_getInfo, hevs] at h

theorem dispatch_releases (ap : CmdArgs) (env : Env) (flags : OpenFlags)
    (evs : List Ev) (hop : ap.fs_op ≠ FsOp.OTHER)
    (hevs : evs.filter isReleaseCall = []) :
    (dispatchAndUnwind ap env flags evs).2.filter isReleaseCall =
      (if isGetOp ap.fs_op = true ∧ env.rc_lookup = 0
        then [Ev.callObjRelease env.rc_obj_release] else []) ++
      [Ev.callUmount env.rc_umount, Ev.callContClose env.rc_cont_close,
       Ev.callPoolDisconnect env.rc_pool_disconnect] := by
  cases hop2 : ap.fs_op <;>
    simp [dispatchAndUnwind, hop2, isGetOp, isReleaseCall, hevs,
      out_umount_releases] at hop ⊢ <;>
    split_ifs with h1 h2 h3 <;>
    simp [isReleaseCall, hevs, out_umount_releases, h1]

theorem firstNonzero_of_trace (env : Env) (evs mid tail : List Ev)
    (hevs : ∀ c ∈ evs.filterMap (recordedCode env), c = 0) :
    firstNonzero ((evs ++ mid ++ tail).filterMap (recordedCode env)) =
      firstNonzero (mid.filterMap (recordedCode env) ++
        tail.filterMap (recordedCode env)) := by
  rw [List.append_assoc, List.filterMap_append]
  rw [firstNonzero_append_zeros _ _ hevs, List.filterMap_append]

theorem dispatch_fst_eq (ap : CmdArgs) (env : Env) (flags : OpenFlags)
    (evs : List Ev) (hop : ap.fs_op ≠ FsOp.OTHER)
    (hevs : ∀ c ∈ evs.filterMap (recordedCode env), c = 0) :
    ∃ r, (dispatchAndUnwind ap env flags evs).1 = some r ∧
      r = firstNonzero
        ((dispatchAndUnwind ap env flags evs).2.filterMap (recordedCode env)) := by
  cases hop2 : ap.fs_op
  case OTHER => exact absurd hop2 hop
  case SET_OCLASS =>
    refine ⟨(out_umount ap env 0).1, by simp [dispatchAndUnwind, hop2], ?_⟩
    have h2 : (dispatchAndUnwind ap env flags evs).2 =
        evs ++ [Ev.out "FS_SET_OCLASS"] ++ (out_umount ap env 0).2 := by
      simp [dispatchAndUnwind, hop2]
    rw [h2, out_umount_fst, firstNonzero_of_trace env _ _ _ hevs,
      out_umount_codes]
    simp [recordedCode, firstNonzero]
  case SET_CSIZE =>
    refine ⟨(out_umount ap env 0).1, by simp [dispatchAndUnwind, hop2], ?_⟩
    have h2 : (dispatchAndUnwind ap env flags evs).2 =
        evs ++ [Ev.out "FS_SET_CSIZE"] ++ (out_umount ap env 0).2 := by
      simp [dispatchAndUnwind, hop2]
    rw [h2, out_umount_fst, firstNonzero_of_trace env _ _ _ hevs,
      out_umount_codes]
    simp [recordedCode, firstNonzero]
  case GET_OCLASS =>
    by_cases hl : env.rc_lookup = 0
    · by_cases hi : env.rc_get_info = 0
      · by_cases hr : env.rc_obj_release = 0
        · refine ⟨(out_umount ap env 0).1,
            by simp [dispatchAndUnwind, hop2, hl, hi, hr], ?_⟩
          have h2 : (dispatchAndUnwind ap env flags evs).2 =
              evs ++ [Ev.callLookup flags env.rc_lookup,
                Ev.callGetInfo env.rc_get_info,
                Ev.callObjRelease env.rc_obj_release,
                Ev.out ("Object Class = " ++
                  env.oclass_id2name env.doi_oclass_id ++ " (" ++
                  toString env.doi_oclass_id ++ ")"),
                Ev.out ("Object Chunk Size = " ++
                  toString env.doi_chunk_size)] ++
              (out_umount ap env 0).2 := by
            simp [dispatchAndUnwind, hop2, hl, hi, hr]
          rw [h2, out_umount_fst, firstNonzero_of_trace env _ _ _ hevs,
            out_umount_codes]
          simp [recordedCode, firstNonzero, hl, hi, hr]
        · refine ⟨(out_umount ap env env.rc_obj_release).1,
            by simp [dispatchAndUnwind, hop2, hl, hi, hr], ?_⟩
          have h2 : (dispatchAndUnwind ap env flags evs).2 =
              evs ++ [Ev.callLookup flags env.rc_lookup,
                Ev.callGetInfo env.rc_get_info,
                Ev.callObjRelease env.rc_obj_release,
                Ev.err (objReleaseDiag env env.rc_obj_release)] ++
              (out_umount ap env env.rc_obj_release).2 := by
            simp [dispatchAndUnwind, hop2, hl, hi, hr]
          rw [h2, out_umount_fst, firstNonzero_of_trace env _ _ _ hevs,
            out_umount_codes]
          simp [recordedCode, firstNonzero, hl, hi, hr]
      · refine ⟨(out_umount ap env env.rc_get_info).1,
          by simp [dispatchAndUnwind, hop2, hl, hi], ?_⟩
        have h2 : (dispatchAndUnwind ap env flags evs).2 =
            evs ++ [Ev.callLookup flags env.rc_lookup,
              Ev.callGetInfo env.rc_get_info,
              Ev.err (getInfoDiag env env.rc_get_info),
              Ev.callObjRelease env.rc_obj_release] ++
            (out_umount ap env env.rc_get_info).2 := by
          simp [dispatchAndUnwind, hop2, hl, hi]
        rw [h2, out_umount_fst, firstNonzero_of_trace env _ _ _ hevs,
          out_umount_codes]
        simp [recordedCode, firstNonzero, hl, hi]
    · refine ⟨(out_umount ap env env.rc_lookup).1,
        by simp [dispatchAndUnwind, hop2, hl], ?_⟩
      have h2 : (dispatchAndUnwind ap env flags evs).2 =
          evs ++ [Ev.callLookup flags env.rc_lookup,
            Ev.err (lookupDiag ap env env.rc_lookup)] ++
          (out_umount ap env env.rc_lookup).2 := by
        simp [dispatchAndUnwind, hop2, hl]
      rw [h2, out_umount_fst, firstNonzero_of_trace env _ _ _ hevs,
        out_umount_codes]
      simp [recordedCode, firstNonzero, hl]
  case GET_CSIZE =>
    by_cases hl : env.rc_lookup = 0
    · by_cases hi : env.rc_get_info = 0
      · by_cases hr : env.rc_obj_release = 0
        · refine ⟨(out_umount ap env 0).1,
            by simp [dispatchAndUnwind, hop2, hl, hi, hr], ?_⟩
          have h2 : (dispatchAndUnwind ap env flags evs).2 =
              evs ++ [Ev.callLookup flags env.rc_lookup,
                Ev.callGetInfo env.rc_get_info,
                Ev.callObjRelease env.rc_obj_release,
                Ev.out ("Object Class = " ++
                  env.oclass_id2name env.doi_oclass_id ++ " (" ++
                  toString env.doi_oclass_id ++ ")"),
                Ev.out ("Object Chunk Size = " ++
                  toString env.doi_chunk_size)] ++
              (out_umount ap env 0).2 := by
            simp [dispatchAndUnwind, hop2, hl, hi, hr]
          rw [h2, out_umount_fst, firstNonzero_of_trace env _ _ _ hevs,
            out_umount_codes]
          simp [recordedCode, firstNonzero, hl, hi, hr]
        · refine ⟨(out_umount ap env env.rc_obj_release).1,
            by simp [dispatchAndUnwind, hop2, hl, hi, hr], ?_⟩
          have h2 : (dispatchAndUnwind ap env flags evs).2 =
              evs ++ [Ev.callLookup flags env.rc_lookup,
                Ev.callGetInfo env.rc_get_info,
                Ev.callObjRelease env.rc_obj_release,
                Ev.err (objReleaseDiag env env.rc_obj_release)] ++
              (out_umount ap env env.rc_obj_release).2 := by
            simp [dispatchAndUnwind, hop2, hl, hi, hr]
          rw [h2, out_umount_fst, firstNonzero_of_trace env _ _ _ hevs,
            out_umount_codes]
          simp [recordedCode, firstNonzero, hl, hi, hr]
      · refine ⟨(out_umount ap env env.rc_get_info).1,
          by simp [dispatchAndUnwind, hop2, hl, hi], ?_⟩
        have h2 : (dispatchAndUnwind ap env flags evs).2 =
            evs ++ [Ev.callLookup flags env.rc_lookup,
              Ev.callGetInfo env.rc_get_info,
              Ev.err (getInfoDiag env env.rc_get_info),
              Ev.callObjRelease env.rc_obj_release] ++
            (out_umount ap env env.rc_get_info).2 := by
          simp [dispatchAndUnwind, hop2, hl, hi]
        rw [h2, out_umount_fst, firstNonzero_of_trace env _ _ _ hevs,
          out_umount_codes]
        simp [recordedCode, firstNonzero, hl, hi]
    · refine ⟨(out_umount ap env env.rc_lookup).1,
        by simp [dispatchAndUnwind, hop2, hl], ?_⟩
      have h2 : (dispatchAndUnwind ap env flags evs).2 =
          evs ++ [Ev.callLookup flags env.rc_lookup,
            Ev.err (lookupDiag ap env env.rc_lookup)] ++
          (out_umount ap env env.rc_lookup).2 := by
        simp [dispatchAndUnwind, hop2, hl]
      rw [h2, out_umount_fst, firstNonzero_of_trace env _ _ _ hevs,
        out_umount_codes]
      simp [recordedCode, firstNonzero, hl]

/-- Witness fixture: a get-chunk-size request without prefix override. -/
def apGet : CmdArgs := ⟨"P", "C", none, "/data/file", FsOp.GET_CSIZE⟩

/-- Witness fixture: a set-object-class request without prefix override. -/
def apSet : CmdArgs := ⟨"P", "C", none, "/data/file", FsOp.SET_OCLASS⟩

/-- Witness fixture: a get-chunk-size request with a prefix override. -/
def apPfx : CmdArgs := ⟨"P", "C", some "/pfx", "/data/file", FsOp.GET_CSIZE⟩

/-- Witness fixture: a request with an unrecognized operation value. -/
def apOther : CmdArgs := ⟨"P", "C", none, "/data/file", FsOp.OTHER⟩

/-- Witness fixture: every external call succeeds; the storage layer reports
class id 1 (named "S1") and chunk size 1048576. -/
def envOk : Env :=
  ⟨0, 0, 0, 0, 0, 0, 0, 0, 0, 0, 1, 1048576,
   fun e => -e, fun _ => "DER_ERR", fun _ => "errno-desc", fun _ => "S1"⟩

/-- Witness fixture: pool connect fails with code -1026. -/
def envConnFail : Env :=
  ⟨-1026, 0, 0, 0, 0, 0, 0, 0, 0, 0, 1, 1048576,
   fun e => -e, fun _ => "DER_ERR", fun _ => "errno-desc", fun _ => "S1"⟩

/-- Witness fixture: container open fails with code -1005 and the pool
disconnect during the unwind also fails, with code -7. -/
def envOpenFail : Env :=
  ⟨0, -1005, 0, 0, 0, 0, 0, 0, 0, -7, 1, 1048576,
   fun e => -e, fun _ => "DER_ERR", fun _ => "errno-desc", fun _ => "S1"⟩

/-- Witness fixture: only the set-prefix call fails, with errno 22. -/
def envPfxFail : Env :=
  ⟨0, 0, 0, 22, 0, 0, 0, 0, 0, 0, 1, 1048576,
   fun e => -e, fun _ => "DER_ERR", fun _ => "errno-desc", fun _ => "S1"⟩

/-- C4: if the pool connect call fails, the handler returns exactly the
connect error code and its whole trace is the connect call plus its
diagnostic: no container-open, mount, or release call is ever made. -/
theorem C4_connect_fail (ap : CmdArgs) (env : Env)
    (h : env.rc_pool_connect ≠ 0) :
    fs_dfs_hdlr ap env =
      (some env.rc_pool_connect,
       [Ev.callPoolConnect env.rc_pool_connect,
        Ev.err (connectDiag ap env env.rc_pool_connect)]) ∧
    (fs_dfs_hdlr ap env).2.filter isReleaseCall = [] := by
  constructor
  · simp [fs_dfs_hdlr, h]
  · simp [fs_dfs_hdlr, h, isReleaseCall]

theorem C4_witness :
    fs_dfs_hdlr apGet envConnFail =
      (some envConnFail.rc_pool_connect,
       [Ev.callPoolConnect envConnFail.rc_pool_connect,
        Ev.err (connectDiag apGet envConnFail envConnFail.rc_pool_connect)]) ∧
    (fs_dfs_hdlr apGet envConnFail).2.filter isReleaseCall = [] :=
  C4_connect_fail apGet envConnFail (by decide)

/-- C5: if the container-open call fails, exactly one release call (the
pool disconnect) occurs, and the handler returns the open error code
regardless of the disconnect's own outcome. -/
theorem C5_open_fail (ap : CmdArgs) (env : Env)
    (h1 : env.rc_pool_connect = 0) (h2 : env.rc_cont_open ≠ 0) :
    (fs_dfs_hdlr ap env).1 = some env.rc_cont_open ∧
    (fs_dfs_hdlr ap env).2.filter isReleaseCall =
      [Ev.callPoolDisconnect env.rc_pool_disconnect] := by
  constructor
  · simp [fs_dfs_hdlr, h1, h2, out_disconnect_fst, firstNonzero]
  · simp [fs_dfs_hdlr, h1, h2, isReleaseCall, out_disconnect_releases]

theorem C5_witness :
    (fs_dfs_hdlr apGet envOpenFail).1 = some envOpenFail.rc_cont_open ∧
    (fs_dfs_hdlr apGet envOpenFail).2.filter isReleaseCall =
      [Ev.callPoolDisconnect envOpenFail.rc_pool_disconnect] :=
  C5_open_fail apGet envOpenFail (by decide) (by decide)

/-- C6: a fully successful get-chunk-size run where the storage layer
reports class id 1 (named "S1") and chunk size 1048576 emits exactly the
two lines "Object Class = S1 (1)" and "Object Chunk Size = 1048576" and
returns 0. -/
theorem C6_get_csize_scenario (ap : CmdArgs) (env : Env)
    (hop : ap.fs_op = FsOp.GET_CSIZE)
    (h1 : env.rc_pool_connect = 0) (h2 : env.rc_cont_open = 0)
    (h3 : env.rc_mount = 0) (h4 : env.rc_set_pfx = 0)
    (h5 : env.rc_lookup = 0) (h6 : env.rc_get_info = 0)
    (h7 : env.rc_obj_release = 0) (h8 : env.rc_umount = 0)
    (h9 : env.rc_cont_close = 0) (h10 : env.rc_pool_disconnect = 0)
    (hcls : env.doi_oclass_id = 1) (hchunk : env.doi_chunk_size = 1048576)
    (hname : env.oclass_id2name 1 = "S1") :
    (fs_dfs_hdlr ap env).2.filter isOutEv =
      [Ev.out "Object Class = S1 (1)",
       Ev.out "Object Chunk Size = 1048576"] ∧
    (fs_dfs_hdlr ap env).1 = some 0 := by
  cases hpfx : ap.dfs_pfx <;>
    simp [fs_dfs_hdlr, dispatchAndUnwind, hop, hpfx, h1, h2, h3, h4, h5, h6,
      h7, h8, h9, h10, hcls, hchunk, hname, out_umount, out_close,
      out_disconnect, isOutEv, firstNonzero] <;>
    exact ⟨rfl, rfl⟩

theorem C6_witness :
    (fs_dfs_hdlr apGet envOk).2.filter isOutEv =
      [Ev.out "Object Class = S1 (1)",
       Ev.out "Object Chunk Size = 1048576"] ∧
    (fs_dfs_hdlr apGet envOk).1 = some 0 :=
  C6_get_csize_scenario apGet envOk rfl rfl rfl rfl rfl rfl rfl rfl rfl rfl
    rfl rfl rfl rfl

theorem dispatch_mem_evs (ap : CmdArgs) (env : Env) (flags : OpenFlags)
    (evs : List Ev) (e : Ev) (h : e ∈ evs) :
    e ∈ (dispatchAndUnwind ap env flags evs).2 := by
  cases hop : ap.fs_op <;> simp only [dispatchAndUnwind, hop] <;>
    (try split_ifs) <;> simp [h]

theorem fs_fst_none_iff (ap : CmdArgs) (env : Env) :
    (fs_dfs_hdlr ap env).1 = none ↔
      (ap.fs_op = FsOp.OTHER ∧ reachedDispatch ap env) := by
  by_cases h1 : env.rc_pool_connect = 0
  · by_cases h2 : env.rc_cont_open = 0
    · by_cases h3 : env.rc_mount = 0
      · cases hpfx : ap.dfs_pfx
        · simp [fs_dfs_hdlr, h1, h2, h3, hpfx, dispatch_fst_none,
            reachedDispatch]
        · by_cases h4 : env.rc_set_pfx = 0
          · simp [fs_dfs_hdlr, h1, h2, h3, h4, hpfx, dispatch_fst_none,
              reachedDispatch]
          · simp [fs_dfs_hdlr, h1, h2, h3, h4, hpfx, reachedDispatch]
      · simp [fs_dfs_hdlr, h1, h2, h3, reachedDispatch]
    · simp [fs_dfs_hdlr, h1, h2, reachedDispatch]
  · simp [fs_dfs_hdlr, h1, reachedDispatch]

/-- C3: whenever the mount call is made (pool
connect and container open succeeded), the mode passed to it is
`mountFlags ap.fs_op`; every lookup call in the trace reuses that same
mode; and the mode is read-write precisely for the two set-operations. -/
theorem C3_mount_mode (ap : CmdArgs) (env : Env)
    (h1 : env.rc_pool_connect = 0) (h2 : env.rc_cont_open = 0) :
    Ev.callMount (mountFlags ap.fs_op) env.rc_mount ∈ (fs_dfs_hdlr ap env).2 ∧
    (∀ f c, Ev.callMount f c ∈ (fs_dfs_hdlr ap env).2 →
      f = mountFlags ap.fs_op) ∧
    (∀ f c, Ev.callLookup f c ∈ (fs_dfs_hdlr ap env).2 →
      f = mountFlags ap.fs_op) ∧
    (mountFlags ap.fs_op = OpenFlags.O_RDWR ↔
      (ap.fs_op = FsOp.SET_OCLASS ∨ ap.fs_op = FsOp.SET_CSIZE)) := by
  refine ⟨?_, ?_, ?_, ?_⟩
  · by_cases h3 : env.rc_mount = 0
    · cases hpfx : ap.dfs_pfx
      · have hmem := dispatch_mem_evs ap env (mountFlags ap.fs_op)
          [Ev.callPoolConnect env.rc_pool_connect,
           Ev.callContOpen env.rc_cont_open,
           Ev.callMount (mountFlags ap.fs_op) env.rc_mount]
          (Ev.callMount (mountFlags ap.fs_op) env.rc_mount) (by simp)
        simpa [fs_dfs_hdlr, h1, h2, h3, hpfx] using hmem
      · by_cases h4 : env.rc_set_pfx = 0
        · have hmem := dispatch_mem_evs ap env (mountFlags ap.fs_op)
            [Ev.callPoolConnect env.rc_pool_connect,
             Ev.callContOpen env.rc_cont_open,
             Ev.callMount (mountFlags ap.fs_op) env.rc_mount,
             Ev.callSetPfx env.rc_set_pfx]
            (Ev.callMount (mountFlags ap.fs_op) env.rc_mount) (by simp)
          simpa [fs_dfs_hdlr, h1, h2, h3, h4, hpfx] using hmem
        · simp [fs_dfs_hdlr, h1, h2, h3, h4, hpfx]
    · simp [fs_dfs_hdlr, h1, h2, h3]
  · intro f c hm
    by_cases h3 : env.rc_mount = 0
    · cases hpfx : ap.dfs_pfx
      · simp [fs_dfs_hdlr, h1, h2, h3, hpfx] at hm
        have := dispatch_no_mount ap env (mountFlags ap.fs_op) _ f c hm
        simp at this
        exact this.1
      · by_cases h4 : env.rc_set_pfx = 0
        · simp [fs_dfs_hdlr, h1, h2, h3, h4, hpfx] at hm
          have := dispatch_no_mount ap env (mountFlags ap.fs_op) _ f c hm
          simp at this
          exact this.1
        · simp [fs_dfs_hdlr, h1, h2, h3, h4, hpfx,
            out_umount_not_mount] at hm
          exact hm.1
    · simp [fs_dfs_hdlr, h1, h2, h3, out_close_not_mount] at hm
      exact hm.1
  · intro f c hm
    by_cases h3 : env.rc_mount = 0
    · cases hpfx : ap.dfs_pfx
      · simp [fs_dfs_hdlr, h1, h2, h3, hpfx] at hm
        have := dispatch_lookup_flags ap env (mountFlags ap.fs_op) _ f c hm
        simpa using this
      · by_cases h4 : env.rc_set_pfx = 0
        · simp [fs_dfs_hdlr, h1, h2, h3, h4, hpfx] at hm
          have := dispatch_lookup_flags ap env (mountFlags ap.fs_op) _ f c hm
          simpa using this
        · simp [fs_dfs_hdlr, h1, h2, h3, h4, hpfx,
            out_umount_not_lookup] at hm
    · simp [fs_dfs_hdlr, h1, h2, h3, out_close_not_lookup] at hm
  · cases hop : ap.fs_op <;> simp [mountFlags, hop]

theorem C3_witness :
    Ev.callMount (mountFlags apGet.fs_op) envOk.rc_mount ∈
      (fs_dfs_hdlr apGet envOk).2 ∧
    (∀ f c, Ev.callMount f c ∈ (fs_dfs_hdlr apGet envOk).2 →
      f = mountFlags apGet.fs_op) ∧
    (∀ f c, Ev.callLookup f c ∈ (fs_dfs_hdlr apGet envOk).2 →
      f = mountFlags apGet.fs_op) ∧
    (mountFlags apGet.fs_op = OpenFlags.O_RDWR ↔
      (apGet.fs_op = FsOp.SET_OCLASS ∨ apGet.fs_op = FsOp.SET_CSIZE)) :=
  C3_mount_mode apGet envOk rfl rfl

/-- C7 (amended): an unrecognized operation value aborts through the
`D_ASSERT(0)` only when the dispatcher is actually reached (all acquisition
stages and the optional prefix stage succeeded); with one of the four
recognized operations the assertion is unreachable and the handler always
returns a code. -/
theorem C7_invalid_op (ap : CmdArgs) (env : Env) :
    (ap.fs_op = FsOp.OTHER → reachedDispatch ap env →
      (fs_dfs_hdlr ap env).1 = none) ∧
    (ap.fs_op ≠ FsOp.OTHER → (fs_dfs_hdlr ap env).1 ≠ none) := by
  constructor
  · intro h hr
    exact (fs_fst_none_iff ap env).mpr ⟨h, hr⟩
  · intro h hn
    exact h ((fs_fst_none_iff ap env).mp hn).1

theorem C7_witness :
    (fs_dfs_hdlr apOther envOk).1 = none :=
  (C7_invalid_op apOther envOk).1 rfl ⟨rfl, rfl, rfl, fun _ => rfl⟩

/-- C7 counterexample: with an unrecognized operation but a failing pool
connect, the handler does not abort; it returns the connect error code
like any other early failure. -/
theorem C7_counterexample :
    apOther.fs_op = FsOp.OTHER ∧
    (fs_dfs_hdlr apOther envConnFail).1 = some (-1026) := by
  exact ⟨rfl, rfl⟩

/-- C9: a set-operation that reaches the dispatcher emits exactly one
acknowledgment line as its only output, and performs no object-level call
at all (no lookup, no get-info, no object release); the branch contains no
call that could mutate stored metadata. -/
theorem C9_set_stub (ap : CmdArgs) (env : Env)
    (hset : ap.fs_op = FsOp.SET_OCLASS ∨ ap.fs_op = FsOp.SET_CSIZE)
    (hr : reachedDispatch ap env) :
    (fs_dfs_hdlr ap env).2.filter isOutEv =
      [Ev.out (if ap.fs_op = FsOp.SET_OCLASS then "FS_SET_OCLASS"
        else "FS_SET_CSIZE")] ∧
    (∀ f c, Ev.callLookup f c ∉ (fs_dfs_hdlr ap env).2) ∧
    (∀ c, Ev.callGetInfo c ∉ (fs_dfs_hdlr ap env).2) ∧
    (∀ c, Ev.callObjRelease c ∉ (fs_dfs_hdlr ap env).2) := by
  obtain ⟨h1, h2, h3, h4⟩ := hr
  rcases hset with hop | hop <;> cases hpfx : ap.dfs_pfx <;>
    first
      | (have h4' : env.rc_set_pfx = 0 := h4 (by rw [hpfx]; rfl)
         simp [fs_dfs_hdlr, dispatchAndUnwind, hop, hpfx, h1, h2, h3, h4',
           isOutEv, out_umount_outs, out_umount_not_lookup,
           out_umount_not_getInfo, out_umount_not_objRelease])
      | simp [fs_dfs_hdlr, dispatchAndUnwind, hop, hpfx, h1, h2, h3,
          isOutEv, out_umount_outs, out_umount_not_lookup,
          out_umount_not_getInfo, out_umount_not_objRelease]

theorem C9_witness :
    (fs_dfs_hdlr apSet envOk).2.filter isOutEv =
      [Ev.out (if apSet.fs_op = FsOp.SET_OCLASS then "FS_SET_OCLASS"
        else "FS_SET_CSIZE")] ∧
    (∀ f c, Ev.callLookup f c ∉ (fs_dfs_hdlr apSet envOk).2) ∧
    (∀ c, Ev.callGetInfo c ∉ (fs_dfs_hdlr apSet envOk).2) ∧
    (∀ c, Ev.callObjRelease c ∉ (fs_dfs_hdlr apSet envOk).2) :=
  C9_set_stub apSet envOk (Or.inl rfl) ⟨rfl, rfl, rfl, fun _ => rfl⟩

theorem out_close_not_getInfo (ap : CmdArgs) (env : Env) (rc c : Int) :
    Ev.callGetInfo c ∉ (out_close ap env rc).2 := by
  intro h
  rcases out_close_all ap env rc _ h with h2 | h2 <;>
    simp [isReleaseCall, isErrEv] at h2

theorem out_disconnect_not_getInfo (ap : CmdArgs) (env : Env) (rc c : Int) :
    Ev.callGetInfo c ∉ (out_disconnect ap env rc).2 := by
  intro h
  rcases out_disconnect_all ap env rc _ h with h2 | h2 <;>
    simp [isReleaseCall, isErrEv] at h2

/-- Witness fixture: only the lookup fails, with errno 2. -/
def envLookupFail : Env :=
  ⟨0, 0, 0, 0, 2, 0, 0, 0, 0, 0, 1, 1048576,
   fun e => -e, fun _ => "DER_ERR", fun _ => "errno-desc", fun _ => "S1"⟩

/-- C2: on every non-aborting path each successfully-acquired resource is
released exactly once and in strict reverse acquisition order: the release
calls of the trace are exactly object-release (when a get-operation's
lookup succeeded), then unmount (when mounted), then container close (when
opened), then pool disconnect (when connected); and when a get-operation's
lookup fails, the object handle is never passed to get-info. -/
theorem C2_release_order (ap : CmdArgs) (env : Env)
    (hop : ap.fs_op ≠ FsOp.OTHER) :
    (fs_dfs_hdlr ap env).2.filter isReleaseCall =
      (if reachedDispatch ap env ∧ isGetOp ap.fs_op = true ∧
          env.rc_lookup = 0
        then [Ev.callObjRelease env.rc_obj_release] else []) ++
      (if env.rc_pool_connect = 0 ∧ env.rc_cont_open = 0 ∧ env.rc_mount = 0
        then [Ev.callUmount env.rc_umount] else []) ++
      (if env.rc_pool_connect = 0 ∧ env.rc_cont_open = 0
        then [Ev.callContClose env.rc_cont_close] else []) ++
      (if env.rc_pool_connect = 0
        then [Ev.callPoolDisconnect env.rc_pool_disconnect] else []) ∧
    ((isGetOp ap.fs_op = true ∧ env.rc_lookup ≠ 0) →
      ∀ c, Ev.callGetInfo c ∉ (fs_dfs_hdlr ap env).2) := by
  constructor
  · by_cases h1 : env.rc_pool_connect = 0
    · by_cases h2 : env.rc_cont_open = 0
      · by_cases h3 : env.rc_mount = 0
        · cases hpfx : ap.dfs_pfx
          · have hd := dispatch_releases ap env (mountFlags ap.fs_op)
              [Ev.callPoolConnect env.rc_pool_connect,
               Ev.callContOpen env.rc_cont_open,
               Ev.callMount (mountFlags ap.fs_op) env.rc_mount]
              hop (by simp [isReleaseCall])
            rw [show fs_dfs_hdlr ap env =
                dispatchAndUnwind ap env (mountFlags ap.fs_op)
                  [Ev.callPoolConnect env.rc_pool_connect,
                   Ev.callContOpen env.rc_cont_open,
                   Ev.callMount (mountFlags ap.fs_op) env.rc_mount] from by
              simp [fs_dfs_hdlr, h1, h2, h3, hpfx]]
            rw [hd]
            simp [reachedDispatch, hpfx, h1, h2, h3]
          · by_cases h4 : env.rc_set_pfx = 0
            · have hd := dispatch_releases ap env (mountFlags ap.fs_op)
                [Ev.callPoolConnect env.rc_pool_connect,
                 Ev.callContOpen env.rc_cont_open,
                 Ev.callMount (mountFlags ap.fs_op) env.rc_mount,
                 Ev.callSetPfx env.rc_set_pfx]
                hop (by simp [isReleaseCall])
              rw [show fs_dfs_hdlr ap env =
                  dispatchAndUnwind ap env (mountFlags ap.fs_op)
                    [Ev.callPoolConnect env.rc_pool_connect,
                     Ev.callContOpen env.rc_cont_open,
                     Ev.callMount (mountFlags ap.fs_op) env.rc_mount,
                     Ev.callSetPfx env.rc_set_pfx] from by
                simp [fs_dfs_hdlr, h1, h2, h3, h4, hpfx]]
              rw [hd]
              simp [reachedDispatch, hpfx, h1, h2, h3, h4]
            · simp [fs_dfs_hdlr, h1, h2, h3, h4, hpfx, isReleaseCall,
                out_umount_releases, reachedDispatch]
        · simp [fs_dfs_hdlr, h1, h2, h3, isReleaseCall, out_close_releases,
            reachedDispatch]
      · simp [fs_dfs_hdlr, h1, h2, isReleaseCall, out_disconnect_releases,
          reachedDispatch]
    · simp [fs_dfs_hdlr, h1, isReleaseCall, reachedDispatch]
  · rintro ⟨hget, hl⟩ c
    by_cases h1 : env.rc_pool_connect = 0
    · by_cases h2 : env.rc_cont_open = 0
      · by_cases h3 : env.rc_mount = 0
        · cases hpfx : ap.dfs_pfx
          · have hnd := dispatch_no_getInfo ap env (mountFlags ap.fs_op)
              [Ev.callPoolConnect env.rc_pool_connect,
               Ev.callContOpen env.rc_cont_open,
               Ev.callMount (mountFlags ap.fs_op) env.rc_mount]
              c hl (by simp)
            simpa [fs_dfs_hdlr, h1, h2, h3, hpfx] using hnd
          · by_cases h4 : env.rc_set_pfx = 0
            · have hnd := dispatch_no_getInfo ap env (mountFlags ap.fs_op)
                [Ev.callPoolConnect env.rc_pool_connect,
                 Ev.callContOpen env.rc_cont_open,
                 Ev.callMount (mountFlags ap.fs_op) env.rc_mount,
                 Ev.callSetPfx env.rc_set_pfx]
                c hl (by simp)
              simpa [fs_dfs_hdlr, h1, h2, h3, h4, hpfx] using hnd
            · simp [fs_dfs_hdlr, h1, h2, h3, h4, hpfx,
                out_umount_not_getInfo]
        · simp [fs_dfs_hdlr, h1, h2, h3, out_close_not_getInfo]
      · simp [fs_dfs_hdlr, h1, h2, out_disconnect_not_getInfo]
    · simp [fs_dfs_hdlr, h1]

theorem C2_witness :
    (fs_dfs_hdlr apGet envLookupFail).2.filter isReleaseCall =
      (if reachedDispatch apGet envLookupFail ∧
          isGetOp apGet.fs_op = true ∧ envLookupFail.rc_lookup = 0
        then [Ev.callObjRelease envLookupFail.rc_obj_release] else []) ++
      (if envLookupFail.rc_pool_connect = 0 ∧
          envLookupFail.rc_cont_open = 0 ∧ envLookupFail.rc_mount = 0
        then [Ev.callUmount envLookupFail.rc_umount] else []) ++
      (if envLookupFail.rc_pool_connect = 0 ∧
          envLookupFail.rc_cont_open = 0
        then [Ev.callContClose envLookupFail.rc_cont_close] else []) ++
      (if envLookupFail.rc_pool_connect = 0
        then [Ev.callPoolDisconnect envLookupFail.rc_pool_disconnect]
        else []) ∧
    ((isGetOp apGet.fs_op = true ∧ envLookupFail.rc_lookup ≠ 0) →
      ∀ c, Ev.callGetInfo c ∉ (fs_dfs_hdlr apGet envLookupFail).2) :=
  C2_release_order apGet envLookupFail (by decide)

/-- C10: a mount failure is recorded through `daos_errno2der` before
becoming the result, whereas lookup, get-info, and object-release failures
in the get-branches are returned in the raw errno domain; and when
get-info fails, the object release is still called but its code is
discarded: no diagnostic for it is emitted and the result stays the
get-info code. -/
theorem C10_error_domains (ap : CmdArgs) (env : Env)
    (h1 : env.rc_pool_connect = 0) (h2 : env.rc_cont_open = 0)
    (h8 : env.rc_umount = 0) (h9 : env.rc_cont_close = 0)
    (h10 : env.rc_pool_disconnect = 0) :
    (env.rc_mount ≠ 0 →
      (fs_dfs_hdlr ap env).1 = some (env.errno2der env.rc_mount)) ∧
    (isGetOp ap.fs_op = true → env.rc_mount = 0 →
      (ap.dfs_pfx.isSome = true → env.rc_set_pfx = 0) →
      env.rc_lookup ≠ 0 →
      (fs_dfs_hdlr ap env).1 = some env.rc_lookup) ∧
    (isGetOp ap.fs_op = true → env.rc_mount = 0 →
      (ap.dfs_pfx.isSome = true → env.rc_set_pfx = 0) →
      env.rc_lookup = 0 → env.rc_get_info ≠ 0 →
      (fs_dfs_hdlr ap env).1 = some env.rc_get_info ∧
      Ev.callObjRelease env.rc_obj_release ∈ (fs_dfs_hdlr ap env).2 ∧
      Ev.err (objReleaseDiag env env.rc_obj_release) ∉
        (fs_dfs_hdlr ap env).2) ∧
    (isGetOp ap.fs_op = true → env.rc_mount = 0 →
      (ap.dfs_pfx.isSome = true → env.rc_set_pfx = 0) →
      env.rc_lookup = 0 → env.rc_get_info = 0 → env.rc_obj_release ≠ 0 →
      (fs_dfs_hdlr ap env).1 = some env.rc_obj_release) := by
  refine ⟨?_, ?_, ?_, ?_⟩
  · intro hm
    rw [show (fs_dfs_hdlr ap env).1 =
        (out_close ap env (env.errno2der env.rc_mount)).1 from by
      simp [fs_dfs_hdlr, h1, h2, hm]]
    rw [out_close_fst]
    by_cases hx : env.errno2der env.rc_mount = 0 <;>
      simp [firstNonzero, h9, h10, hx]
  · intro hget h3 h4 hl
    cases hopc : ap.fs_op <;> simp [isGetOp, hopc] at hget <;>
      cases hpfx : ap.dfs_pfx <;>
      [skip; (have h4' : env.rc_set_pfx = 0 := h4 (by rw [hpfx]; rfl));
       skip; (have h4' : env.rc_set_pfx = 0 := h4 (by rw [hpfx]; rfl))] <;>
      simp [fs_dfs_hdlr, dispatchAndUnwind, hopc, hpfx, h1, h2, h3, hl,
        out_umount_fst, firstNonzero, h8, h9, h10] <;>
      simp_all
  · intro hget h3 h4 hl hi
    cases hopc : ap.fs_op <;> simp [isGetOp, hopc] at hget <;>
      cases hpfx : ap.dfs_pfx <;>
      [skip; (have h4' : env.rc_set_pfx = 0 := h4 (by rw [hpfx]; rfl));
       skip; (have h4' : env.rc_set_pfx = 0 := h4 (by rw [hpfx]; rfl))] <;>
      simp [fs_dfs_hdlr, dispatchAndUnwind, hopc, hpfx, h1, h2, h3, hl, hi,
        out_umount_fst, firstNonzero, h8, h9, h10, out_umount, out_close,
        out_disconnect, getInfoDiag, objReleaseDiag] <;>
      simp_all
  · intro hget h3 h4 hl hi hr
    cases hopc : ap.fs_op <;> simp [isGetOp, hopc] at hget <;>
      cases hpfx : ap.dfs_pfx <;>
      [skip; (have h4' : env.rc_set_pfx = 0 := h4 (by rw [hpfx]; rfl));
       skip; (have h4' : env.rc_set_pfx = 0 := h4 (by rw [hpfx]; rfl))] <;>
      simp [fs_dfs_hdlr, dispatchAndUnwind, hopc, hpfx, h1, h2, h3, hl, hi,
        hr, out_umount_fst, firstNonzero, h8, h9, h10] <;>
      simp_all

/-- Witness fixture: only the mount fails, with errno 5. -/
def envMountFail : Env :=
  ⟨0, 0, 5, 0, 0, 0, 0, 0, 0, 0, 1, 1048576,
   fun e => -e, fun _ => "DER_ERR", fun _ => "errno-desc", fun _ => "S1"⟩

/-- Witness fixture: get-info fails with errno 61 and the discarded object
release also fails, with errno 7. -/
def envInfoFail : Env :=
  ⟨0, 0, 0, 0, 0, 61, 7, 0, 0, 0, 1, 1048576,
   fun e => -e, fun _ => "DER_ERR", fun _ => "errno-desc", fun _ => "S1"⟩

/-- Witness fixture: only the checked object release fails, with errno 9. -/
def envRelFail : Env :=
  ⟨0, 0, 0, 0, 0, 0, 9, 0, 0, 0, 1, 1048576,
   fun e => -e, fun _ => "DER_ERR", fun _ => "errno-desc", fun _ => "S1"⟩

theorem C10_witness :
    (fs_dfs_hdlr apGet envMountFail).1 =
      some (envMountFail.errno2der envMountFail.rc_mount) ∧
    (fs_dfs_hdlr apGet envLookupFail).1 =
      some envLookupFail.rc_lookup ∧
    ((fs_dfs_hdlr apGet envInfoFail).1 = some envInfoFail.rc_get_info ∧
      Ev.callObjRelease envInfoFail.rc_obj_release ∈
        (fs_dfs_hdlr apGet envInfoFail).2 ∧
      Ev.err (objReleaseDiag envInfoFail envInfoFail.rc_obj_release) ∉
        (fs_dfs_hdlr apGet envInfoFail).2) ∧
    (fs_dfs_hdlr apGet envRelFail).1 = some envRelFail.rc_obj_release :=
  ⟨(C10_error_domains apGet envMountFail rfl rfl rfl rfl rfl).1 (by decide),
   (C10_error_domains apGet envLookupFail rfl rfl rfl rfl rfl).2.1
     rfl rfl (fun _ => rfl) (by decide),
   (C10_error_domains apGet envInfoFail rfl rfl rfl rfl rfl).2.2.1
     rfl rfl (fun _ => rfl) rfl (by decide),
   (C10_error_domains apGet envRelFail rfl rfl rfl rfl rfl).2.2.2
     rfl rfl (fun _ => rfl) rfl rfl (by decide)⟩

/-- C1: for every non-aborting execution the returned value is the first
nonzero recorded code of the whole acquire-dispatch-release sequence (the
mount stage's nonzero errno being recorded through `daos_errno2der`, here
assumed nonzero-preserving): zero is returned exactly when every recorded
code is zero, and a later failure never replaces an earlier recorded one. -/
theorem C1_first_error_wins (ap : CmdArgs) (env : Env)
    (hop : ap.fs_op ≠ FsOp.OTHER)
    (hconv : ∀ e : Int, e ≠ 0 → env.errno2der e ≠ 0) :
    ∃ r, (fs_dfs_hdlr ap env).1 = some r ∧
      r = firstNonzero
        ((fs_dfs_hdlr ap env).2.filterMap (recordedCode env)) ∧
      (r = 0 ↔
        ∀ c ∈ (fs_dfs_hdlr ap env).2.filterMap (recordedCode env),
          c = 0) := by
  have main : ∃ r, (fs_dfs_hdlr ap env).1 = some r ∧
      r = firstNonzero
        ((fs_dfs_hdlr ap env).2.filterMap (recordedCode env)) := by
    by_cases h1 : env.rc_pool_connect = 0
    · by_cases h2 : env.rc_cont_open = 0
      · by_cases h3 : env.rc_mount = 0
        · cases hpfx : ap.dfs_pfx
          · have hd := dispatch_fst_eq ap env (mountFlags ap.fs_op)
              [Ev.callPoolConnect env.rc_pool_connect,
               Ev.callContOpen env.rc_cont_open,
               Ev.callMount (mountFlags ap.fs_op) env.rc_mount]
              hop (by simp [recordedCode, h1, h2, h3])
            rw [show fs_dfs_hdlr ap env =
                dispatchAndUnwind ap env (mountFlags ap.fs_op)
                  [Ev.callPoolConnect env.rc_pool_connect,
                   Ev.callContOpen env.rc_cont_open,
                   Ev.callMount (mountFlags ap.fs_op) env.rc_mount] from by
              simp [fs_dfs_hdlr, h1, h2, h3, hpfx]]
            exact hd
          · by_cases h4 : env.rc_set_pfx = 0
            · have hd := dispatch_fst_eq ap env (mountFlags ap.fs_op)
                [Ev.callPoolConnect env.rc_pool_connect,
                 Ev.callContOpen env.rc_cont_open,
                 Ev.callMount (mountFlags ap.fs_op) env.rc_mount,
                 Ev.callSetPfx env.rc_set_pfx]
                hop (by simp [recordedCode, h1, h2, h3, h4])
              rw [show fs_dfs_hdlr ap env =
                  dispatchAndUnwind ap env (mountFlags ap.fs_op)
                    [Ev.callPoolConnect env.rc_pool_connect,
                     Ev.callContOpen env.rc_cont_open,
                     Ev.callMount (mountFlags ap.fs_op) env.rc_mount,
                     Ev.callSetPfx env.rc_set_pfx] from by
                simp [fs_dfs_hdlr, h1, h2, h3, h4, hpfx]]
              exact hd
            · refine ⟨(out_umount ap env env.rc_set_pfx).1,
                by simp [fs_dfs_hdlr, h1, h2, h3, h4, hpfx], ?_⟩
              rw [show (fs_dfs_hdlr ap env).2 =
                  [Ev.callPoolConnect env.rc_pool_connect,
                   Ev.callContOpen env.rc_cont_open,
                   Ev.callMount (mountFlags ap.fs_op) env.rc_mount] ++
                  [Ev.callSetPfx env.rc_set_pfx] ++
                  (out_umount ap env env.rc_set_pfx).2 from by
                simp [fs_dfs_hdlr, h1, h2, h3, h4, hpfx]]
              rw [out_umount_fst,
                firstNonzero_of_trace env _ _ _
                  (by simp [recordedCode, h1, h2, h3]),
                out_umount_codes]
              simp [recordedCode, firstNonzero, h4]
        · refine ⟨(out_close ap env (env.errno2der env.rc_mount)).1,
            by simp [fs_dfs_hdlr, h1, h2, h3], ?_⟩
          rw [show (fs_dfs_hdlr ap env).2 =
              [Ev.callPoolConnect env.rc_pool_connect,
               Ev.callContOpen env.rc_cont_open,
               Ev.callMount (mountFlags ap.fs_op) env.rc_mount,
               Ev.err (mountDiag ap env env.rc_mount)] ++
              (out_close ap env (env.errno2der env.rc_mount)).2 from by
            simp [fs_dfs_hdlr, h1, h2, h3]]
          rw [List.filterMap_append, out_close_codes, out_close_fst]
          simp [recordedCode, firstNonzero, h1, h2, h3, hconv _ h3]
      · refine ⟨(out_disconnect ap env env.rc_cont_open).1,
          by simp [fs_dfs_hdlr, h1, h2], ?_⟩
        rw [show (fs_dfs_hdlr ap env).2 =
            [Ev.callPoolConnect env.rc_pool_connect,
             Ev.callContOpen env.rc_cont_open,
             Ev.err (openDiag ap env env.rc_cont_open)] ++
            (out_disconnect ap env env.rc_cont_open).2 from by
          simp [fs_dfs_hdlr, h1, h2]]
        rw [List.filterMap_append, out_disconnect_codes, out_disconnect_fst]
        simp [recordedCode, firstNonzero, h1, h2]
    · refine ⟨env.rc_pool_connect, by simp [fs_dfs_hdlr, h1], ?_⟩
      rw [show (fs_dfs_hdlr ap env).2 =
          [Ev.callPoolConnect env.rc_pool_connect,
           Ev.err (connectDiag ap env env.rc_pool_connect)] from by
        simp [fs_dfs_hdlr, h1]]
      simp [recordedCode, firstNonzero, h1]
  obtain ⟨r, hr1, hr2⟩ := main
  refine ⟨r, hr1, hr2, ?_⟩
  rw [hr2]
  exact firstNonzero_eq_zero _

theorem C1_witness :
    ∃ r, (fs_dfs_hdlr apGet envOk).1 = some r ∧
      r = firstNonzero
        ((fs_dfs_hdlr apGet envOk).2.filterMap (recordedCode envOk)) ∧
      (r = 0 ↔
        ∀ c ∈ (fs_dfs_hdlr apGet envOk).2.filterMap (recordedCode envOk),
          c = 0) :=
  C1_first_error_wins apGet envOk (by decide)
    (fun e he => show -e ≠ 0 from neg_ne_zero.mpr he)

theorem out_disconnect_err_disconnect (ap : CmdArgs) (env : Env) (rc : Int)
    (h : env.rc_pool_disconnect ≠ 0) :
    Ev.err (disconnectDiag ap env env.rc_pool_disconnect) ∈
      (out_disconnect ap env rc).2 := by
  simp [out_disconnect, h]

theorem out_close_err_close (ap : CmdArgs) (env : Env) (rc : Int)
    (h : env.rc_cont_close ≠ 0) :
    Ev.err (closeDiag ap env env.rc_cont_close) ∈ (out_close ap env rc).2 := by
  simp [out_close, out_disconnect, h]

theorem out_close_err_disconnect (ap : CmdArgs) (env : Env) (rc : Int)
    (h : env.rc_pool_disconnect ≠ 0) :
    Ev.err (disconnectDiag ap env env.rc_pool_disconnect) ∈
      (out_close ap env rc).2 := by
  simp [out_close, out_disconnect, h]

theorem out_umount_not_objDiag (ap : CmdArgs) (env : Env) (rc c : Int) :
    Ev.err (objReleaseDiag env c) ∉ (out_umount ap env rc).2 := by
  by_cases hu : env.rc_umount = 0 <;> by_cases hc : env.rc_cont_close = 0 <;>
    by_cases hd : env.rc_pool_disconnect = 0 <;>
      simp [out_umount, out_close, out_disconnect, hu, hc, hd,
        objReleaseDiag, umountDiag, closeDiag, disconnectDiag]

theorem dispatch_mem_unwind (ap : CmdArgs) (env : Env) (flags : OpenFlags)
    (evs : List Ev) (e : Ev) (hop : ap.fs_op ≠ FsOp.OTHER)
    (h : ∀ rc : Int, e ∈ (out_umount ap env rc).2) :
    e ∈ (dispatchAndUnwind ap env flags evs).2 := by
  cases hopc : ap.fs_op
  case OTHER => exact absurd hopc hop
  all_goals
    simp only [dispatchAndUnwind, hopc]
    (try split_ifs) <;> simp [h]

theorem fs_mem_unwind (ap : CmdArgs) (env : Env) (e : Ev)
    (hop : ap.fs_op ≠ FsOp.OTHER) (hr : reachedDispatch ap env)
    (h : ∀ rc : Int, e ∈ (out_umount ap env rc).2) :
    e ∈ (fs_dfs_hdlr ap env).2 := by
  obtain ⟨h1, h2, h3, h4⟩ := hr
  cases hpfx : ap.dfs_pfx
  · have hm := dispatch_mem_unwind ap env (mountFlags ap.fs_op)
      [Ev.callPoolConnect env.rc_pool_connect,
       Ev.callContOpen env.rc_cont_open,
       Ev.callMount (mountFlags ap.fs_op) env.rc_mount] e hop h
    simpa [fs_dfs_hdlr, h1, h2, h3, hpfx] using hm
  · have h4' : env.rc_set_pfx = 0 := h4 (by rw [hpfx]; rfl)
    have hm := dispatch_mem_unwind ap env (mountFlags ap.fs_op)
      [Ev.callPoolConnect env.rc_pool_connect,
       Ev.callContOpen env.rc_cont_open,
       Ev.callMount (mountFlags ap.fs_op) env.rc_mount,
       Ev.callSetPfx env.rc_set_pfx] e hop h
    simpa [fs_dfs_hdlr, h1, h2, h3, h4', hpfx] using hm

/-- C8 (amended): pool-connect, container-open, mount, and lookup failures
each produce a stderr diagnostic carrying the relevant identifier (pool
id, container id, or path) and the underlying code or description; on
every non-aborting execution a container-close or pool-disconnect failure
during the unwind likewise produces its identifier-and-code diagnostic
whenever the corresponding resource had been acquired, and an unmount
failure produces a fixed message with neither identifier nor code nor
description; a get-info failure, or an object-release failure after a
successful get-info, produces a diagnostic with the error description but
no identifier; the object release performed after a failed get-info
produces no diagnostic even when it fails; and a set-prefix failure
produces no diagnostic at all. -/
theorem C8_diagnostics (ap : CmdArgs) (env : Env) :
    (env.rc_pool_connect ≠ 0 →
      Ev.err (connectDiag ap env env.rc_pool_connect) ∈
        (fs_dfs_hdlr ap env).2 ∧
      ap.p_uuid ∈ (connectDiag ap env env.rc_pool_connect).ids ∧
      (connectDiag ap env env.rc_pool_connect).code ≠ none) ∧
    (env.rc_pool_connect = 0 → env.rc_cont_open ≠ 0 →
      Ev.err (openDiag ap env env.rc_cont_open) ∈ (fs_dfs_hdlr ap env).2 ∧
      ap.c_uuid ∈ (openDiag ap env env.rc_cont_open).ids ∧
      (openDiag ap env env.rc_cont_open).code ≠ none) ∧
    (env.rc_pool_connect = 0 → env.rc_cont_open = 0 → env.rc_mount ≠ 0 →
      Ev.err (mountDiag ap env env.rc_mount) ∈ (fs_dfs_hdlr ap env).2 ∧
      ap.c_uuid ∈ (mountDiag ap env env.rc_mount).ids ∧
      (mountDiag ap env env.rc_mount).code ≠ none) ∧
    (isGetOp ap.fs_op = true → reachedDispatch ap env →
      env.rc_lookup ≠ 0 →
      Ev.err (lookupDiag ap env env.rc_lookup) ∈ (fs_dfs_hdlr ap env).2 ∧
      ap.dfs_path ∈ (lookupDiag ap env env.rc_lookup).ids ∧
      (lookupDiag ap env env.rc_lookup).desc ≠ none) ∧
    (isGetOp ap.fs_op = true → reachedDispatch ap env →
      env.rc_lookup = 0 → env.rc_get_info ≠ 0 →
      Ev.err (getInfoDiag env env.rc_get_info) ∈ (fs_dfs_hdlr ap env).2 ∧
      (getInfoDiag env env.rc_get_info).ids = [] ∧
      (getInfoDiag env env.rc_get_info).desc ≠ none) ∧
    (isGetOp ap.fs_op = true → reachedDispatch ap env →
      env.rc_lookup = 0 → env.rc_get_info = 0 → env.rc_obj_release ≠ 0 →
      Ev.err (objReleaseDiag env env.rc_obj_release) ∈
        (fs_dfs_hdlr ap env).2 ∧
      (objReleaseDiag env env.rc_obj_release).ids = [] ∧
      (objReleaseDiag env env.rc_obj_release).desc ≠ none) ∧
    (isGetOp ap.fs_op = true → reachedDispatch ap env →
      env.rc_lookup = 0 → env.rc_get_info ≠ 0 →
      Ev.err (objReleaseDiag env env.rc_obj_release) ∉
        (fs_dfs_hdlr ap env).2) ∧
    (env.rc_pool_connect = 0 → env.rc_cont_open = 0 → env.rc_mount = 0 →
      ¬(ap.fs_op = FsOp.OTHER ∧ reachedDispatch ap env) →
      env.rc_umount ≠ 0 →
      Ev.err umountDiag ∈ (fs_dfs_hdlr ap env).2 ∧
      umountDiag.ids = [] ∧ umountDiag.code = none ∧
      umountDiag.desc = none) ∧
    (env.rc_pool_connect = 0 → env.rc_cont_open = 0 →
      ¬(ap.fs_op = FsOp.OTHER ∧ reachedDispatch ap env) →
      env.rc_cont_close ≠ 0 →
      Ev.err (closeDiag ap env env.rc_cont_close) ∈ (fs_dfs_hdlr ap env).2 ∧
      ap.c_uuid ∈ (closeDiag ap env env.rc_cont_close).ids ∧
      (closeDiag ap env env.rc_cont_close).code ≠ none) ∧
    (env.rc_pool_connect = 0 →
      ¬(ap.fs_op = FsOp.OTHER ∧ reachedDispatch ap env) →
      env.rc_pool_disconnect ≠ 0 →
      Ev.err (disconnectDiag ap env env.rc_pool_disconnect) ∈
        (fs_dfs_hdlr ap env).2 ∧
      ap.p_uuid ∈ (disconnectDiag ap env env.rc_pool_disconnect).ids ∧
      (disconnectDiag ap env env.rc_pool_disconnect).code ≠ none) ∧
    (env.rc_pool_connect = 0 → env.rc_cont_open = 0 → env.rc_mount = 0 →
      ap.dfs_pfx.isSome = true → env.rc_set_pfx ≠ 0 →
      env.rc_umount = 0 → env.rc_cont_close = 0 →
      env.rc_pool_disconnect = 0 →
      (fs_dfs_hdlr ap env).2.filter isErrEv = []) := by
  refine ⟨?_, ?_, ?_, ?_, ?_, ?_, ?_, ?_, ?_, ?_, ?_⟩
  · intro hc
    simp [fs_dfs_hdlr, hc, connectDiag]
  · intro h1 h2
    simp [fs_dfs_hdlr, h1, h2, openDiag]
  · intro h1 h2 h3
    simp [fs_dfs_hdlr, h1, h2, h3, mountDiag]
  · intro hget hr hl
    obtain ⟨h1, h2, h3, h4⟩ := hr
    cases hopc : ap.fs_op <;> simp [isGetOp, hopc] at hget <;>
      cases hpfx : ap.dfs_pfx <;>
      [skip; (have h4' : env.rc_set_pfx = 0 := h4 (by rw [hpfx]; rfl));
       skip; (have h4' : env.rc_set_pfx = 0 := h4 (by rw [hpfx]; rfl))] <;>
      simp_all [fs_dfs_hdlr, dispatchAndUnwind, hopc, hl, lookupDiag]
  · intro hget hr hl hi
    obtain ⟨h1, h2, h3, h4⟩ := hr
    cases hopc : ap.fs_op <;> simp [isGetOp, hopc] at hget <;>
      cases hpfx : ap.dfs_pfx <;>
      [skip; (have h4' : env.rc_set_pfx = 0 := h4 (by rw [hpfx]; rfl));
       skip; (have h4' : env.rc_set_pfx = 0 := h4 (by rw [hpfx]; rfl))] <;>
      simp_all [fs_dfs_hdlr, dispatchAndUnwind, hopc, hl, hi, getInfoDiag]
  · intro hget hr hl hi hrel
    obtain ⟨h1, h2, h3, h4⟩ := hr
    cases hopc : ap.fs_op <;> simp [isGetOp, hopc] at hget <;>
      cases hpfx : ap.dfs_pfx <;>
      [skip; (have h4' : env.rc_set_pfx = 0 := h4 (by rw [hpfx]; rfl));
       skip; (have h4' : env.rc_set_pfx = 0 := h4 (by rw [hpfx]; rfl))] <;>
      simp_all [fs_dfs_hdlr, dispatchAndUnwind, hopc, hl, hi, hrel,
        objReleaseDiag]
  · intro hget hr hl hi
    obtain ⟨h1, h2, h3, h4⟩ := hr
    cases hopc : ap.fs_op <;> simp [isGetOp, hopc] at hget <;>
      cases hpfx : ap.dfs_pfx <;>
      [skip; (have h4' : env.rc_set_pfx = 0 := h4 (by rw [hpfx]; rfl));
       skip; (have h4' : env.rc_set_pfx = 0 := h4 (by rw [hpfx]; rfl))] <;>
      simp_all [fs_dfs_hdlr, dispatchAndUnwind, hopc, hl, hi,
        out_umount_not_objDiag, objReleaseDiag, getInfoDiag] <;>
      exact out_umount_not_objDiag ap env _ env.rc_obj_release
  · intro h1 h2 h3 hno hu
    refine ⟨?_, by simp [umountDiag], by simp [umountDiag],
      by simp [umountDiag]⟩
    cases hpfx : ap.dfs_pfx
    · by_cases hop : ap.fs_op = FsOp.OTHER
      · exact absurd ⟨hop, h1, h2, h3, by simp [hpfx]⟩ hno
      · exact fs_mem_unwind ap env _ hop ⟨h1, h2, h3, by simp [hpfx]⟩
          (fun rc => out_umount_err_umount ap env rc hu)
    · by_cases h4 : env.rc_set_pfx = 0
      · by_cases hop : ap.fs_op = FsOp.OTHER
        · exact absurd ⟨hop, h1, h2, h3, fun _ => h4⟩ hno
        · exact fs_mem_unwind ap env _ hop ⟨h1, h2, h3, fun _ => h4⟩
            (fun rc => out_umount_err_umount ap env rc hu)
      · have hm := out_umount_err_umount ap env env.rc_set_pfx hu
        simp [fs_dfs_hdlr, h1, h2, h3, h4, hpfx, hm]
  · intro h1 h2 hno hcl
    refine ⟨?_, by simp [closeDiag], by simp [closeDiag]⟩
    by_cases h3 : env.rc_mount = 0
    · cases hpfx : ap.dfs_pfx
      · by_cases hop : ap.fs_op = FsOp.OTHER
        · exact absurd ⟨hop, h1, h2, h3, by simp [hpfx]⟩ hno
        · exact fs_mem_unwind ap env _ hop ⟨h1, h2, h3, by simp [hpfx]⟩
            (fun rc => out_umount_err_close ap env rc hcl)
      · by_cases h4 : env.rc_set_pfx = 0
        · by_cases hop : ap.fs_op = FsOp.OTHER
          · exact absurd ⟨hop, h1, h2, h3, fun _ => h4⟩ hno
          · exact fs_mem_unwind ap env _ hop ⟨h1, h2, h3, fun _ => h4⟩
              (fun rc => out_umount_err_close ap env rc hcl)
        · have hm := out_umount_err_close ap env env.rc_set_pfx hcl
          simp [fs_dfs_hdlr, h1, h2, h3, h4, hpfx, hm]
    · have hm := out_close_err_close ap env (env.errno2der env.rc_mount) hcl
      simp [fs_dfs_hdlr, h1, h2, h3, hm]
  · intro h1 hno hd
    refine ⟨?_, by simp [disconnectDiag], by simp [disconnectDiag]⟩
    by_cases h2 : env.rc_cont_open = 0
    · by_cases h3 : env.rc_mount = 0
      · cases hpfx : ap.dfs_pfx
        · by_cases hop : ap.fs_op = FsOp.OTHER
          · exact absurd ⟨hop, h1, h2, h3, by simp [hpfx]⟩ hno
          · exact fs_mem_unwind ap env _ hop ⟨h1, h2, h3, by simp [hpfx]⟩
              (fun rc => out_umount_err_disconnect ap env rc hd)
        · by_cases h4 : env.rc_set_pfx = 0
          · by_cases hop : ap.fs_op = FsOp.OTHER
            · exact absurd ⟨hop, h1, h2, h3, fun _ => h4⟩ hno
            · exact fs_mem_unwind ap env _ hop ⟨h1, h2, h3, fun _ => h4⟩
                (fun rc => out_umount_err_disconnect ap env rc hd)
          · have hm := out_umount_err_disconnect ap env env.rc_set_pfx hd
            simp [fs_dfs_hdlr, h1, h2, h3, h4, hpfx, hm]
      · have hm := out_close_err_disconnect ap env
          (env.errno2der env.rc_mount) hd
        simp [fs_dfs_hdlr, h1, h2, h3, hm]
    · have hm := out_disconnect_err_disconnect ap env env.rc_cont_open hd
      simp [fs_dfs_hdlr, h1, h2, hm]
  · intro h1 h2 h3 hps h5 h8 h9 h10
    cases hpfx : ap.dfs_pfx
    · rw [hpfx] at hps
      simp at hps
    · simp [fs_dfs_hdlr, h1, h2, h3, h5, hpfx, isErrEv,
        out_umount_errs_ok ap env _ h8 h9 h10]

/-- C8 counterexample: in a run whose only failure is the set-prefix call
(errno 22), the handler fails (returns 22) yet emits no stderr diagnostic
at all. -/
theorem C8_counterexample :
    (fs_dfs_hdlr apPfx envPfxFail).1 = some 22 ∧
    (fs_dfs_hdlr apPfx envPfxFail).2.filter isErrEv = [] := by
  exact ⟨rfl, by decide⟩

theorem C8_witness :
    Ev.err (connectDiag apGet envConnFail envConnFail.rc_pool_connect) ∈
      (fs_dfs_hdlr apGet envConnFail).2 ∧
    apGet.p_uuid ∈
      (connectDiag apGet envConnFail envConnFail.rc_pool_connect).ids ∧
    (connectDiag apGet envConnFail envConnFail.rc_pool_connect).code ≠
      none :=
  (C8_diagnostics apGet envConnFail).1 (by decide)

end DaosDfs
